import Mathlib

/-!
# Verification of the littlevk resource-lifecycle and frame-synchronization layer

Shallow embedding of `littlevk.hpp`: the deferred-deallocation/ownership model
(return proxies and deallocation queues), the swapchain acquire/present frame
state machine, resize recovery, and the declarative render-pass/pipeline
assemblers and linked allocator. Native Vulkan handles are modelled as natural
numbers; a deallocation record (a `std::function` closure capturing one value
and its destructor) is modelled by the natural number identifying that
closure's effect.
-/

namespace littlevk

/-- `using DeallocationQueue = std::queue<std::function<void(vk::Device)>>;`
A record is identified by the closure it holds (destructor applied to the
captured value).  Front of the queue is the head of the list; `push` appends
at the tail. -/
abbrev DeallocationQueue := List Nat

/-- `struct Deallocator { vk::Device device; DeallocationQueue device_deallocators; }` -/
structure Deallocator where
  device_deallocators : DeallocationQueue
  deriving DecidableEq

/-- The `while (!empty()) { front()(device); pop(); }` loop of
`Deallocator::drop`, accumulating the trace of executed records. -/
def dropGo : DeallocationQueue → List Nat → List Nat × DeallocationQueue
  | [], trace => (trace, [])
  | r :: rest, trace => dropGo rest (trace ++ [r])

/-- `Deallocator::drop`: executes every record front-to-back and empties the
queue.  Returns the execution trace together with the updated deallocator. -/
def Deallocator.drop (d : Deallocator) : List Nat × Deallocator :=
  let p := dropGo d.device_deallocators []
  (p.1, { device_deallocators := p.2 })

/-- `template <typename T, void destructor(const vk::Device &, const T &)>
struct DeviceReturnProxy { T value; bool failed; ... }`.
The template's destructor parameter is modelled by the `destructor` field:
the record pushed by `unwrap`/`defer` is the closure `[val](device){
destructor(device, val); }`, i.e. `destructor value`. -/
structure DeviceReturnProxy (T : Type) where
  destructor : T → Nat
  value : T
  failed : Bool

/-- `DeviceReturnProxy::unwrap(Deallocator &)`: on failure returns `T{}` and
pushes nothing; otherwise pushes one record capturing the value and returns
the value.  The proxy object itself is not modified by the call. -/
def DeviceReturnProxy.unwrap {T : Type} [Inhabited T]
    (p : DeviceReturnProxy T) (dal : Deallocator) : T × Deallocator :=
  if p.failed then (default, dal)
  else (p.value, ⟨dal.device_deallocators ++ [p.destructor p.value]⟩)

/-- `DeviceReturnProxy::defer(DeallocationQueue &)`: same as `unwrap` but
targets a transient queue. -/
def DeviceReturnProxy.defer {T : Type} [Inhabited T]
    (p : DeviceReturnProxy T) (q : DeallocationQueue) : T × DeallocationQueue :=
  if p.failed then (default, q)
  else (p.value, q ++ [p.destructor p.value])

/-- `template <typename T> struct ComposedReturnProxy { T value; bool failed;
DeallocationQueue queue; }` -/
structure ComposedReturnProxy (T : Type) where
  value : T
  failed : Bool
  queue : DeallocationQueue

/-- The `while (!queue.empty()) { target.push(queue.front()); queue.pop(); }`
loop moving every staged record into the target queue in order. -/
def moveAll : DeallocationQueue → DeallocationQueue → DeallocationQueue
  | target, [] => target
  | target, r :: rest => moveAll (target ++ [r]) rest

/-- `ComposedReturnProxy::unwrap(Deallocator &)`: on failure returns `T{}`
and moves nothing; otherwise drains the proxy's transient queue into the
deallocator's queue (front to back) and returns the value.  The call mutates
the proxy (its transient queue is emptied), so the updated proxy is returned
as well. -/
def ComposedReturnProxy.unwrap {T : Type} [Inhabited T]
    (p : ComposedReturnProxy T) (dal : Deallocator) :
    T × Deallocator × ComposedReturnProxy T :=
  if p.failed then (default, dal, p)
  else (p.value, ⟨moveAll dal.device_deallocators p.queue⟩, { p with queue := [] })

/-- `ComposedReturnProxy::defer(DeallocationQueue &)`: same draining into a
transient target queue. -/
def ComposedReturnProxy.defer {T : Type} [Inhabited T]
    (p : ComposedReturnProxy T) (q : DeallocationQueue) :
    T × DeallocationQueue × ComposedReturnProxy T :=
  if p.failed then (default, q, p)
  else (p.value, moveAll q p.queue, { p with queue := [] })

/-- Committing a sequence of creation results to the device-owned queue, one
`unwrap` per proxy (the usage pattern of every builder in the header). -/
def commitAll {T : Type} [Inhabited T]
    (ps : List (DeviceReturnProxy T)) (dal : Deallocator) : Deallocator :=
  ps.foldl (fun d p => (p.unwrap d).2) dal

/-- The status enumeration nested in `struct SurfaceOperation`. -/
inductive SurfaceStatus
  | eOk
  | eResize
  | eFailed
  deriving DecidableEq

/-- `struct SurfaceOperation { enum { eOk, eResize, eFailed } status; uint32_t index; }` -/
structure SurfaceOperation where
  status : SurfaceStatus
  index : Nat
  deriving DecidableEq

/-- CPU-observable state of a `vk::Fence` (signaled or not). -/
structure Fence where
  signaled : Bool
  deriving DecidableEq

/-- `struct PresentSyncronization`: three parallel arrays indexed by
frame-in-flight slot.  Semaphores are opaque handles; fences carry their
signaled state. -/
structure PresentSyncronization where
  image_available : List Nat
  render_finished : List Nat
  in_flight : List Fence
  deriving DecidableEq

/-- `present_syncronization(device, frames_in_flight)`: one loop iteration
per frame in flight creates an image-available semaphore, a render-finished
semaphore, and a fence whose create info has `eSignaled` set.  Semaphore
handles are modelled by their creation order. -/
def present_syncronization (frames_in_flight : Nat) : PresentSyncronization :=
  (List.range frames_in_flight).foldl
    (fun sync i =>
      { image_available := sync.image_available ++ [2 * i],
        render_finished := sync.render_finished ++ [2 * i + 1],
        in_flight := sync.in_flight ++ [⟨true⟩] })
    ⟨[], [], []⟩

/-- Outcome of the native `acquireNextImageKHR` call as observed inside
`acquire_image`: vulkan-hpp either throws `OutOfDateKHRError` or returns a
result code together with an image index. -/
inductive AcquireResult
  | outOfDate
  | success (index : Nat)
  | suboptimal (index : Nat)
  | otherError
  deriving DecidableEq

/-- `acquire_image`: after waiting on the slot's in-flight fence it acquires
the next image; an out-of-date surface yields `eResize` and any other
non-success, non-suboptimal result yields `eFailed`, in both cases returning
before `resetFences` — only the `eOk` path resets the slot's fence. -/
def acquire_image (fence : Fence) (r : AcquireResult) : SurfaceOperation × Fence :=
  match r with
  | .outOfDate => (⟨.eResize, 0⟩, fence)
  | .otherError => (⟨.eFailed, 0⟩, fence)
  | .success i => (⟨.eOk, i⟩, ⟨false⟩)
  | .suboptimal i => (⟨.eOk, i⟩, ⟨false⟩)

/-- Scripted native outcomes for one iteration of `swapchain_render_loop`:
the `SurfaceOperation` produced by `acquire_image` and the status
`present_image` reports if presentation is reached. -/
structure IterScript where
  acq : SurfaceOperation
  prs : SurfaceStatus
  deriving DecidableEq

/-- Observable actions of one iteration of the render loop. -/
inductive LoopAction
  | callResize
  | submit
  | present
  deriving DecidableEq

/-- The body of the `while` loop in `swapchain_render_loop`: if
`acquire_image` reports `eResize` the resize callback runs and the loop
`continue`s — `frame` does not advance and nothing is submitted or
presented.  On any other acquire status the command buffer is recorded and
submitted, the image is presented (running the resize callback if
presentation reports `eResize`), and `frame` becomes `(frame + 1) % count`. -/
def renderIteration (count frame : Nat) (s : IterScript) : Nat × List LoopAction :=
  if s.acq.status = SurfaceStatus.eResize then
    (frame, [LoopAction.callResize])
  else
    ((frame + 1) % count,
      [LoopAction.submit, LoopAction.present] ++
        (if s.prs = SurfaceStatus.eResize then [LoopAction.callResize] else []))

/-- The render loop run over a finite script of iteration outcomes,
accumulating the trace of observable actions. -/
def renderLoop (count : Nat) : Nat → List IterScript → Nat × List LoopAction
  | frame, [] => (frame, [])
  | frame, s :: rest =>
    let step := renderIteration count frame s
    let tail := renderLoop count step.1 rest
    (tail.1, step.2 ++ tail.2)

/-- One entry of `vk::PhysicalDeviceMemoryProperties::memoryTypes`. -/
structure MemoryType where
  propertyFlags : Nat
  deriving DecidableEq

/-- `vk::PhysicalDeviceMemoryProperties`: `memoryTypes` up to
`memoryTypeCount`. -/
structure PhysicalDeviceMemoryProperties where
  memoryTypes : List MemoryType
  deriving DecidableEq

/-- The `for (uint32_t i = 0; i < memoryTypeCount; i++)` loop of
`find_memory_type`: each iteration tests `(type_filter & 1)` on the running
filter and `(memoryTypes[i].propertyFlags & properties) == properties`, and
shifts the filter right by one bit on a miss. -/
def find_memory_type_go (properties : Nat) :
    List MemoryType → Nat → Nat → Option Nat
  | [], _, _ => none
  | t :: rest, type_filter, i =>
    if type_filter % 2 = 1 ∧ Nat.land t.propertyFlags properties = properties then
      some i
    else
      find_memory_type_go properties rest (type_filter / 2) (i + 1)

/-- `find_memory_type`: index of the first matching memory type; `none`
models the logged hard error returning the `uint32_t(~0)` sentinel when no
type matches. -/
def find_memory_type (mem_props : PhysicalDeviceMemoryProperties)
    (type_filter properties : Nat) : Option Nat :=
  find_memory_type_go properties mem_props.memoryTypes type_filter 0

/-- Specification-side predicate: memory type `k` is admissible — bit `k` of
the requested filter is set and the type's property flags are a superset of
the requested property flags. -/
def memMatch (types : List MemoryType) (type_filter properties k : Nat) : Prop :=
  Nat.testBit type_filter k = true ∧
  Nat.land ((types.getD k ⟨0⟩).propertyFlags) properties = properties

/-- State of a `LinkedDeviceAllocator` chain obtained from
`bind(device, properties, dal)`: the ordered heterogeneous tuple of resources
built so far (modelled as the ordered list of their handles) and the bound
device-owned deallocator. -/
structure LinkedDeviceAllocator where
  resources : List Nat
  dal : Deallocator

/-- One `.buffer(...)` / `.image(...)` step of the linked allocator:
`littlevk::buffer(device, properties, args...).unwrap(dal)` (resp.
`littlevk::image(...).unwrap(dal)`) — the creation result, scripted here as a
`DeviceReturnProxy`, is committed to the device-owned deallocator at once,
and the unwrapped value is appended to the tuple. -/
def LinkedDeviceAllocator.step (st : LinkedDeviceAllocator)
    (p : DeviceReturnProxy Nat) : LinkedDeviceAllocator :=
  let r := p.unwrap st.dal
  { resources := st.resources ++ [r.1], dal := r.2 }

/-- Result of reading the finished chain through `operator const auto &`:
the lone resource when the tuple has exactly one element, the whole ordered
tuple otherwise. -/
inductive Unpacked
  | single (r : Nat)
  | group (rs : List Nat)
  deriving DecidableEq

/-- `operator const auto &` of `LinkedDeviceAllocator`. -/
def LinkedDeviceAllocator.unpack (st : LinkedDeviceAllocator) : Unpacked :=
  match st.resources with
  | [r] => Unpacked.single r
  | rs => Unpacked.group rs

/-- `vk::DescriptorSetLayoutBinding` as declared through `with_dsl_binding`. -/
structure DescriptorSetLayoutBinding where
  binding : Nat
  descriptorType : Nat
  descriptorCount : Nat
  stageFlags : Nat
  deriving DecidableEq

/-- The layout-relevant accumulated state of `PipelineAssemblerBase`: the
declared descriptor-set-layout bindings, in declaration order. -/
structure PipelineAssemblerState where
  dsl_bindings : List DescriptorSetLayoutBinding
  deriving DecidableEq

/-- `with_dsl_binding(binding, type, count, stage)`: `emplace_back` on the
declared binding list. -/
def PipelineAssemblerState.with_dsl_binding (a : PipelineAssemblerState)
    (binding descriptorType descriptorCount stageFlags : Nat) :
    PipelineAssemblerState :=
  ⟨a.dsl_bindings ++ [⟨binding, descriptorType, descriptorCount, stageFlags⟩]⟩

/-- The `for (auto &dslb : dsl_bindings) pipeline.bindings[dslb.binding] =
dslb;` loop of the graphics `compile()`: one `std::map` write per declared
binding, a later write to the same key overwriting an earlier one. -/
def bindingMap (l : List DescriptorSetLayoutBinding) :
    Nat → Option DescriptorSetLayoutBinding :=
  l.foldl (fun m b k => if k = b.binding then some b else m k) (fun _ => none)

/-- `struct Pipeline`, restricted to what the claims examine: the optional
descriptor-set layout (carrying the bindings it was created from) and the
binding map. -/
structure Pipeline where
  dsl : Option (List DescriptorSetLayoutBinding)
  bindings : Nat → Option DescriptorSetLayoutBinding

/-- `PipelineAssembler<eGraphics>::compile()` on the layout state: a
descriptor-set layout is created iff `dsl_bindings.size()` is nonzero, and
the binding map is filled from the declared bindings. -/
def compileGraphics (a : PipelineAssemblerState) : Pipeline :=
  { dsl := if a.dsl_bindings.isEmpty then none else some a.dsl_bindings,
    bindings := bindingMap a.dsl_bindings }

/-- `PipelineAssembler<eCompute>::compile()` on the layout state: the same
descriptor-set-layout condition, but the compute variant has no binding-map
loop — `pipeline.bindings` is left default-constructed (empty). -/
def compileCompute (a : PipelineAssemblerState) : Pipeline :=
  { dsl := if a.dsl_bindings.isEmpty then none else some a.dsl_bindings,
    bindings := fun _ => none }

/-- Observable events of a pipeline `compile` call. -/
inductive PipelineEvent
  | logEmptyStagesError
  | createDescriptorSetLayout
  | createPipelineLayout
  | createGraphicsPipeline
  | createComputePipeline
  | throwBadOptionalAccess
  deriving DecidableEq

/-- `pipeline::compile(device, GraphicsCreateInfo)`: when
`info.shader_stages` is empty a `microlog::error` line is emitted, and the
function then proceeds to `createGraphicsPipeline` unconditionally. -/
def pipelineCompileGraphicsTrace (shader_stages : List Nat) :
    List PipelineEvent :=
  (if shader_stages.isEmpty then [PipelineEvent.logEmptyStagesError] else []) ++
    [PipelineEvent.createGraphicsPipeline]

/-- `PipelineAssembler<eCompute>::compile()` as an event trace: the
descriptor-set layout (if any bindings) and the pipeline layout are created
first; `bundle.value()` then throws `std::bad_optional_access` when no
shader bundle was set — no log line, no native pipeline creation — and
otherwise the compute pipeline is created. -/
def computeAssemblerCompileTrace
    (dsl_bindings : List DescriptorSetLayoutBinding)
    (bundle : Option (List Nat)) : List PipelineEvent :=
  (if dsl_bindings.isEmpty then []
   else [PipelineEvent.createDescriptorSetLayout]) ++
    [PipelineEvent.createPipelineLayout] ++
    (match bundle with
     | none => [PipelineEvent.throwBadOptionalAccess]
     | some _ => [PipelineEvent.createComputePipeline])

/-- `vk::AttachmentReference { uint32_t attachment; vk::ImageLayout layout; }` -/
structure AttachmentReference where
  attachment : Nat
  layout : Nat
  deriving DecidableEq

/-- `vk::SubpassDescription` as produced by `SubpassAssembler::done`:
bind point, input references, color references and the optional depth
reference. -/
structure SubpassDescription where
  bindpoint : Nat
  inputs : List AttachmentReference
  colors : List AttachmentReference
  depth : Option AttachmentReference
  deriving DecidableEq

/-- `RenderPassAssembler` builder state.  `A` is the attachment-description
type, opaque to the assembler (it only stores descriptions in order). -/
structure RenderPassAssembler (A : Type) where
  attachments : List A
  subpasses : List SubpassDescription
  dependencies : List (Nat × Nat)

/-- `add_attachment`: `push_back` on the attachment list. -/
def RenderPassAssembler.add_attachment {A : Type}
    (rpa : RenderPassAssembler A) (d : A) : RenderPassAssembler A :=
  { rpa with attachments := rpa.attachments ++ [d] }

/-- `add_dependency(src, dst, ...)`: `emplace_back` on the dependency list. -/
def RenderPassAssembler.add_dependency {A : Type}
    (rpa : RenderPassAssembler A) (src dst : Nat) : RenderPassAssembler A :=
  { rpa with dependencies := rpa.dependencies ++ [(src, dst)] }

/-- `SubpassAssembler` nested builder state. -/
structure SubpassAssembler (A : Type) where
  parent : RenderPassAssembler A
  bindpoint : Nat
  inputs : List AttachmentReference
  colors : List AttachmentReference
  depth : Option AttachmentReference

/-- `add_subpass(bindpoint)`: returns a fresh subpass assembler over the
parent. -/
def RenderPassAssembler.add_subpass {A : Type}
    (rpa : RenderPassAssembler A) (bp : Nat) : SubpassAssembler A :=
  ⟨rpa, bp, [], [], none⟩

/-- `input_attachment(attachment, layout)`: `emplace_back` on `inputs`. -/
def SubpassAssembler.input_attachment {A : Type}
    (s : SubpassAssembler A) (a l : Nat) : SubpassAssembler A :=
  { s with inputs := s.inputs ++ [⟨a, l⟩] }

/-- `color_attachment(attachment, layout)`: `emplace_back` on `colors`. -/
def SubpassAssembler.color_attachment {A : Type}
    (s : SubpassAssembler A) (a l : Nat) : SubpassAssembler A :=
  { s with colors := s.colors ++ [⟨a, l⟩] }

/-- `depth_attachment(attachment, layout)`: overwrites the optional depth
reference. -/
def SubpassAssembler.depth_attachment {A : Type}
    (s : SubpassAssembler A) (a l : Nat) : SubpassAssembler A :=
  { s with depth := some ⟨a, l⟩ }

/-- `done()`: pushes the accumulated `vk::SubpassDescription` onto the
parent assembler and returns it. -/
def SubpassAssembler.done {A : Type} (s : SubpassAssembler A) :
    RenderPassAssembler A :=
  { s.parent with
    subpasses := s.parent.subpasses ++
      [⟨s.bindpoint, s.inputs, s.colors, s.depth⟩] }

/-- A caller's call on the subpass assembler, for quantifying over call
sequences. -/
inductive SubpassOp
  | input (a l : Nat)
  | color (a l : Nat)
  | depth (a l : Nat)
  deriving DecidableEq

/-- Dispatch one scripted call to the subpass assembler. -/
def SubpassAssembler.applyOp {A : Type} (s : SubpassAssembler A) :
    SubpassOp → SubpassAssembler A
  | .input a l => s.input_attachment a l
  | .color a l => s.color_attachment a l
  | .depth a l => s.depth_attachment a l

/-- Specification-side projection: the input references of a call script,
in call order. -/
def inputRefs : List SubpassOp → List AttachmentReference :=
  List.filterMap fun op =>
    match op with
    | .input a l => some ⟨a, l⟩
    | _ => none

/-- Specification-side projection: the color references of a call script,
in call order. -/
def colorRefs : List SubpassOp → List AttachmentReference :=
  List.filterMap fun op =>
    match op with
    | .color a l => some ⟨a, l⟩
    | _ => none

/-- Specification-side projection: the depth reference left by the last
`depth_attachment` call of the script, starting from `d`. -/
def lastDepthFrom (d : Option AttachmentReference) (ops : List SubpassOp) :
    Option AttachmentReference :=
  ops.foldl
    (fun acc op =>
      match op with
      | .depth a l => some ⟨a, l⟩
      | _ => acc) d

/-- The `vk::RenderPassCreateInfo` assembled by `operator vk::RenderPass()`
from the accumulated attachment, subpass and dependency lists. -/
structure RenderPassCreateInfo (A : Type) where
  attachments : List A
  subpasses : List SubpassDescription
  dependencies : List (Nat × Nat)

/-- `operator vk::RenderPass()`: hands the accumulated lists, unchanged and
in order, to `littlevk::render_pass`. -/
def RenderPassAssembler.toCreateInfo {A : Type} (rpa : RenderPassAssembler A) :
    RenderPassCreateInfo A :=
  ⟨rpa.attachments, rpa.subpasses, rpa.dependencies⟩

/-- `vk::Extent2D` -/
structure Extent2D where
  width : Nat
  height : Nat
  deriving DecidableEq

/-- The retained `vk::SwapchainCreateInfoKHR` stored in `Swapchain::info`. -/
structure SwapchainCreateInfo where
  surface : Nat
  minImageCount : Nat
  imageFormat : Nat
  imageColorSpace : Nat
  imageExtent : Extent2D
  imageArrayLayers : Nat
  imageUsage : Nat
  imageSharingMode : Nat
  preTransform : Nat
  compositeAlpha : Nat
  presentMode : Nat
  clipped : Bool
  oldSwapchain : Nat
  deriving DecidableEq

/-- `struct Swapchain { vk::Format format; vk::SwapchainKHR handle;
std::vector<vk::Image> images; std::vector<vk::ImageView> image_views;
vk::SwapchainCreateInfoKHR info; }` -/
structure Swapchain where
  format : Nat
  handle : Nat
  images : List Nat
  image_views : List Nat
  info : SwapchainCreateInfo
  deriving DecidableEq

/-- Device calls observed during resize recovery. -/
inductive DeviceEvent
  | destroyImageView (v : Nat)
  | destroySwapchain (h : Nat)
  | createSwapchain (info : SwapchainCreateInfo)
  | createImageView (img : Nat)
  | waitIdle
  deriving DecidableEq

/-- The native device as used by `littlevk::resize`: sources of the handles
produced by the recreation calls. -/
structure DeviceModel where
  createSwapchain : SwapchainCreateInfo → Nat
  getSwapchainImages : Nat → List Nat
  createImageView : Nat → Nat

/-- `littlevk::resize(device, swapchain, extent)`: destroys the old image
views and the old swapchain handle, overwrites only `info.imageExtent`,
recreates the swapchain from the retained creation info, refetches the
image list and rebuilds one view per image. -/
def resize (dev : DeviceModel) (sc : Swapchain) (extent : Extent2D) :
    Swapchain × List DeviceEvent :=
  let info2 := { sc.info with imageExtent := extent }
  let handle2 := dev.createSwapchain info2
  let images2 := dev.getSwapchainImages handle2
  ({ sc with
      info := info2,
      handle := handle2,
      images := images2,
      image_views := images2.map dev.createImageView },
   sc.image_views.map DeviceEvent.destroyImageView ++
     [DeviceEvent.destroySwapchain sc.handle,
      DeviceEvent.createSwapchain info2] ++
     images2.map DeviceEvent.createImageView)

/-- The stable-size polling loop of `Skeleton::resize`, over the sequence of
framebuffer-size samples successive `glfwGetFramebufferSize` calls observe:
a zero-sized read is skipped (the `while (w == 0 || h == 0)` inner loop),
then one more read is taken and accepted only if it equals the previous
one (`do { ... } while (new != current)`); `none` models a sample stream
that ends before a stable nonzero size is seen. -/
def stableSize : List Extent2D → Option Extent2D
  | [] => none
  | [_] => none
  | s :: n :: rest =>
    if s.width = 0 ∨ s.height = 0 then stableSize (n :: rest)
    else if n = s then some n
    else stableSize rest

/-- `vk::SurfaceCapabilitiesKHR`, restricted to the extent bounds used by
resize recovery. -/
structure SurfaceCapabilities where
  minImageExtent : Extent2D
  maxImageExtent : Extent2D
  deriving DecidableEq

/-- `std::clamp(v, lo, hi)` -/
def stdClamp (v lo hi : Nat) : Nat :=
  if v < lo then lo else if hi < v then hi else v

/-- The two `std::clamp` calls of `Skeleton::resize` against the surface's
min/max image extent. -/
def clampExtent (caps : SurfaceCapabilities) (s : Extent2D) : Extent2D :=
  ⟨stdClamp s.width caps.minImageExtent.width caps.maxImageExtent.width,
   stdClamp s.height caps.minImageExtent.height caps.maxImageExtent.height⟩

/-- `struct Skeleton`, restricted to the state resize recovery touches. -/
structure Skeleton where
  windowExtent : Extent2D
  swapchain : Swapchain
  deriving DecidableEq

/-- `Skeleton::resize()`: waits for a geometrically stable nonzero
framebuffer size, clamps it to the surface capabilities, fully idles the
device (`device.waitIdle()`), rebuilds the swapchain in place through
`littlevk::resize` and stores the new window extent. -/
def Skeleton.resize (dev : DeviceModel) (caps : SurfaceCapabilities)
    (samples : List Extent2D) (sk : Skeleton) :
    Option (Skeleton × List DeviceEvent) :=
  match stableSize samples with
  | none => none
  | some s =>
    let e := clampExtent caps s
    let r := littlevk.resize dev sk.swapchain e
    some ({ windowExtent := e, swapchain := r.1 },
      DeviceEvent.waitIdle :: r.2)

end littlevk

namespace littlevk

theorem moveAll_eq_append (q : DeallocationQueue) :
    ∀ target : DeallocationQueue, moveAll target q = target ++ q := by
  induction q with
  | nil => intro target; simp [moveAll]
  | cons r rest ih =>
      intro target
      simp [moveAll, ih, List.append_assoc]

theorem dropGo_eq (q : DeallocationQueue) :
    ∀ trace : List Nat, dropGo q trace = (trace ++ q, []) := by
  induction q with
  | nil => intro trace; simp [dropGo]
  | cons r rest ih =>
      intro trace
      simp [dropGo, ih, List.append_assoc]

theorem Deallocator.drop_eq (d : Deallocator) :
    d.drop = (d.device_deallocators, ⟨[]⟩) := by
  simp [Deallocator.drop, dropGo_eq]

theorem commitAll_queue {T : Type} [Inhabited T]
    (ps : List (DeviceReturnProxy T)) (dal : Deallocator)
    (h : ∀ p ∈ ps, p.failed = false) :
    (commitAll ps dal).device_deallocators =
      dal.device_deallocators ++ ps.map (fun p => p.destructor p.value) := by
  induction ps generalizing dal with
  | nil => simp [commitAll]
  | cons p rest ih =>
      have hp : p.failed = false := h p (List.mem_cons_self p rest)
      have hrest : ∀ q ∈ rest, q.failed = false :=
        fun q hq => h q (List.mem_cons_of_mem p hq)
      simp only [commitAll, List.foldl_cons] at *
      rw [ih _ hrest]
      simp [DeviceReturnProxy.unwrap, hp, List.append_assoc]

end littlevk

open littlevk

/-- C1: for every `DeviceReturnProxy` and `ComposedReturnProxy`, consuming the
proxy with `unwrap` (commit to the device-owned queue) or `defer` (commit to a
transient queue) returns the default value and appends no record when the
proxy reports failure, and otherwise returns the held value and appends
exactly its records — one record for a `DeviceReturnProxy`, all records of the
transient queue, in order, for a `ComposedReturnProxy`. -/
theorem C1_proxy_commit_semantics {T : Type} [Inhabited T]
    (p : DeviceReturnProxy T) (c : ComposedReturnProxy T)
    (dal : Deallocator) (q : DeallocationQueue) :
    ((p.unwrap dal).1 = if p.failed then default else p.value) ∧
    ((p.unwrap dal).2.device_deallocators =
      dal.device_deallocators ++ (if p.failed then [] else [p.destructor p.value])) ∧
    ((p.defer q).1 = if p.failed then default else p.value) ∧
    ((p.defer q).2 = q ++ (if p.failed then [] else [p.destructor p.value])) ∧
    ((c.unwrap dal).1 = if c.failed then default else c.value) ∧
    ((c.unwrap dal).2.1.device_deallocators =
      dal.device_deallocators ++ (if c.failed then [] else c.queue)) ∧
    ((c.defer q).1 = if c.failed then default else c.value) ∧
    ((c.defer q).2.1 = q ++ (if c.failed then [] else c.queue)) := by
  cases hp : p.failed <;> cases hc : c.failed <;>
    simp [DeviceReturnProxy.unwrap, DeviceReturnProxy.defer,
      ComposedReturnProxy.unwrap, ComposedReturnProxy.defer, hp, hc,
      moveAll_eq_append]

/-- C2: committing M successful creations to a device-owned queue and then
calling `Deallocator::drop` executes exactly M destructor calls, one per
record, in first-registered-first-destroyed (FIFO) order, and leaves the
queue empty. -/
theorem C2_drop_fifo_and_empties {T : Type} [Inhabited T]
    (ps : List (DeviceReturnProxy T))
    (h : ∀ p ∈ ps, p.failed = false) :
    ((commitAll ps ⟨[]⟩).drop.1 = ps.map (fun p => p.destructor p.value)) ∧
    ((commitAll ps ⟨[]⟩).drop.1.length = ps.length) ∧
    ((commitAll ps ⟨[]⟩).drop.2.device_deallocators = []) ∧
    (∀ r : Nat, (commitAll ps ⟨[]⟩).drop.1.count r =
      (ps.map (fun p => p.destructor p.value)).count r) := by
  have hq := commitAll_queue ps ⟨[]⟩ h
  simp only [List.nil_append] at hq
  rw [Deallocator.drop_eq, hq]
  refine ⟨rfl, by simp, rfl, fun r => rfl⟩

/-- Witness for C2 at a concrete pair of successful proxies. -/
theorem C2_drop_fifo_and_empties_witness :
    (∀ p ∈ [(⟨fun v => v, 3, false⟩ : DeviceReturnProxy Nat),
            ⟨fun v => v + 1, 5, false⟩], p.failed = false) ∧
    ((commitAll [(⟨fun v => v, 3, false⟩ : DeviceReturnProxy Nat),
                 ⟨fun v => v + 1, 5, false⟩] ⟨[]⟩).drop.1 =
      [(⟨fun v => v, 3, false⟩ : DeviceReturnProxy Nat),
       ⟨fun v => v + 1, 5, false⟩].map (fun p => p.destructor p.value)) := by
  refine ⟨?_, ?_⟩
  · intro p hp
    rcases List.mem_cons.mp hp with rfl | hp2
    · rfl
    rcases List.mem_cons.mp hp2 with rfl | hp3
    · rfl
    cases hp3
  · refine (C2_drop_fifo_and_empties _ ?_).1
    intro p hp
    rcases List.mem_cons.mp hp with rfl | hp2
    · rfl
    rcases List.mem_cons.mp hp2 with rfl | hp3
    · rfl
    cases hp3

/-- C4 counterexample: a successful `DeviceReturnProxy` is not spent by
`unwrap`; applying `unwrap` twice registers the same resource's deallocation
record twice (a double free).  Here the proxy holding value 7 yields a device
queue `[7, 7]` after two commits. -/
theorem C4_counterexample_double_unwrap :
    (((⟨fun v => v, 7, false⟩ : DeviceReturnProxy Nat).unwrap
        (((⟨fun v => v, 7, false⟩ : DeviceReturnProxy Nat).unwrap
          ⟨[]⟩).2)).2.device_deallocators = [7, 7]) ∧
    (((⟨fun v => v, 7, false⟩ : DeviceReturnProxy Nat).unwrap
        (((⟨fun v => v, 7, false⟩ : DeviceReturnProxy Nat).unwrap
          ⟨[]⟩).2)).2.device_deallocators.count 7 = 2) := by
  constructor <;> rfl

/-- C4 amended: a `ComposedReturnProxy` is effectively single-use — consuming
it drains its transient queue, so a second consuming call on the returned
proxy appends zero records.  A `DeviceReturnProxy` is not guarded: it is
unchanged by consumption, and every further `unwrap`/`defer` on a successful
proxy appends one more record for the same resource, so single use is a
caller obligation rather than an enforced property. -/
theorem C4_amended_single_use {T : Type} [Inhabited T]
    (p : DeviceReturnProxy T) (c : ComposedReturnProxy T) (dal : Deallocator)
    (hp : p.failed = false) (hc : c.failed = false) :
    (((c.unwrap dal).2.2.unwrap (c.unwrap dal).2.1).2.1.device_deallocators =
      (c.unwrap dal).2.1.device_deallocators) ∧
    ((p.unwrap (p.unwrap dal).2).2.device_deallocators =
      dal.device_deallocators ++ [p.destructor p.value] ++ [p.destructor p.value]) := by
  constructor
  · simp [ComposedReturnProxy.unwrap, hc, moveAll_eq_append]
  · simp [DeviceReturnProxy.unwrap, hp, List.append_assoc]

/-- Witness for the amended C4 at concrete proxies. -/
theorem C4_amended_single_use_witness :
    ((⟨fun v => v, 7, false⟩ : DeviceReturnProxy Nat).failed = false) ∧
    ((⟨9, false, [1, 2]⟩ : ComposedReturnProxy Nat).failed = false) ∧
    (((⟨9, false, [1, 2]⟩ : ComposedReturnProxy Nat).unwrap
        ⟨[]⟩).2.2.unwrap ((⟨9, false, [1, 2]⟩ : ComposedReturnProxy Nat).unwrap
        ⟨[]⟩).2.1).2.1.device_deallocators =
      ((⟨9, false, [1, 2]⟩ : ComposedReturnProxy Nat).unwrap
        ⟨[]⟩).2.1.device_deallocators := by
  refine ⟨rfl, rfl, ?_⟩
  exact (C4_amended_single_use (⟨fun v => v, 7, false⟩ : DeviceReturnProxy Nat)
    (⟨9, false, [1, 2]⟩ : ComposedReturnProxy Nat) ⟨[]⟩ rfl rfl).1

namespace littlevk

theorem present_syncronization_closed (F : Nat) :
    present_syncronization F =
      ⟨(List.range F).map (fun i => 2 * i),
       (List.range F).map (fun i => 2 * i + 1),
       List.replicate F ⟨true⟩⟩ := by
  induction F with
  | zero => rfl
  | succ n ih =>
      unfold present_syncronization at ih ⊢
      rw [List.range_succ, List.foldl_append, ih]
      simp [List.replicate_succ']

theorem renderLoop_success (count : Nat) (scripts : List IterScript)
    (hall : ∀ t ∈ scripts,
      t.acq.status = SurfaceStatus.eOk ∧ t.prs = SurfaceStatus.eOk) :
    ∀ f : Nat, f % count = f →
      (renderLoop count f scripts).1 = (f + scripts.length) % count := by
  induction scripts with
  | nil =>
      intro f hf
      simpa [renderLoop] using hf.symm
  | cons s rest ih =>
      intro f hf
      have hs := hall s (List.mem_cons_self s rest)
      have hrest : ∀ t ∈ rest,
          t.acq.status = SurfaceStatus.eOk ∧ t.prs = SurfaceStatus.eOk :=
        fun t ht => hall t (List.mem_cons_of_mem s ht)
      have hstep : (renderIteration count f s).1 = (f + 1) % count := by
        simp [renderIteration, hs.1]
      have hmod : ((f + 1) % count) % count = (f + 1) % count :=
        Nat.mod_mod_of_dvd _ dvd_rfl
      simp only [renderLoop, hstep]
      rw [ih hrest _ hmod, Nat.mod_add_mod]
      simp only [List.length_cons]
      congr 1
      omega

end littlevk

/-- C10: `present_syncronization(device, F)` creates exactly F image-available
semaphores, F render-finished semaphores and F in-flight fences, every fence
created in the signaled state; and `acquire_image` resets the slot's fence
only on the `eOk` outcome — on `eResize`/`eFailed` the fence keeps its prior
(signaled) state, so a subsequent fence wait on that slot does not block
forever. -/
theorem C10_sync_creation_and_fence_reset (F : Nat) (f : Fence) (r : AcquireResult) :
    ((present_syncronization F).image_available.length = F) ∧
    ((present_syncronization F).render_finished.length = F) ∧
    ((present_syncronization F).in_flight.length = F) ∧
    ((present_syncronization F).in_flight = List.replicate F ⟨true⟩) ∧
    (∀ fe ∈ (present_syncronization F).in_flight, fe.signaled = true) ∧
    ((acquire_image f r).2.signaled =
      if (acquire_image f r).1.status = SurfaceStatus.eOk then false
      else f.signaled) := by
  rw [present_syncronization_closed]
  refine ⟨by simp, by simp, by simp, rfl, ?_, ?_⟩
  · intro fe hfe
    have := List.eq_of_mem_replicate hfe
    rw [this]
  · cases r <;> rfl

/-- C3 counterexample: the claim that the frame-in-flight index advances only
on a fully successful acquire+submit+present cycle is false — when
presentation reports `eResize` (and likewise when acquisition reports
`eFailed`) the loop still advances the index. -/
theorem C3_counterexample_advance_without_success :
    ¬ (∀ (count frame : Nat) (s : IterScript),
        (renderIteration count frame s).1 ≠ frame →
          s.acq.status = SurfaceStatus.eOk ∧ s.prs = SurfaceStatus.eOk) := by
  intro h
  have := h 2 0 ⟨⟨SurfaceStatus.eOk, 0⟩, SurfaceStatus.eResize⟩ (by decide)
  exact absurd this.2 (by decide)

/-- C3 amended: in `swapchain_render_loop` the frame-in-flight index advances
by `(index + 1) mod frames_in_flight` exactly when `acquire_image` does not
yield `eResize` (including iterations where acquisition fails or presentation
reports `eResize`); an `eResize` acquire outcome causes an immediate
`continue` with the resize callback run, no submit, no present and an
unchanged index; and after S fully-successful iterations with
`frames_in_flight = F` the index equals `S mod F`. -/
theorem C3_amended_frame_advance (count frame : Nat) (s : IterScript)
    (scripts : List IterScript)
    (hres : s.acq.status = SurfaceStatus.eResize)
    (hall : ∀ t ∈ scripts,
      t.acq.status = SurfaceStatus.eOk ∧ t.prs = SurfaceStatus.eOk) :
    (renderIteration count frame s = (frame, [LoopAction.callResize])) ∧
    (∀ t : IterScript, (renderIteration count frame t).1 =
      if t.acq.status = SurfaceStatus.eResize then frame
      else (frame + 1) % count) ∧
    ((renderLoop count 0 scripts).1 = scripts.length % count) := by
  refine ⟨by simp [renderIteration, hres], ?_, ?_⟩
  · intro t
    by_cases ht : t.acq.status = SurfaceStatus.eResize <;>
      simp [renderIteration, ht]
  · have := renderLoop_success count scripts hall 0 (Nat.zero_mod count)
    simpa using this

/-- Witness for the amended C3: `frames_in_flight = 2`, five successful
iterations end at index `5 mod 2 = 1`, and a resize-at-acquire iteration
leaves the index at 0 with only the resize callback run. -/
theorem C3_amended_frame_advance_witness :
    ((⟨⟨SurfaceStatus.eResize, 0⟩, SurfaceStatus.eOk⟩ : IterScript).acq.status =
      SurfaceStatus.eResize) ∧
    (∀ t ∈ List.replicate 5
        (⟨⟨SurfaceStatus.eOk, 0⟩, SurfaceStatus.eOk⟩ : IterScript),
      t.acq.status = SurfaceStatus.eOk ∧ t.prs = SurfaceStatus.eOk) ∧
    (renderIteration 2 0 ⟨⟨SurfaceStatus.eResize, 0⟩, SurfaceStatus.eOk⟩ =
      (0, [LoopAction.callResize])) ∧
    ((renderLoop 2 0 (List.replicate 5
        (⟨⟨SurfaceStatus.eOk, 0⟩, SurfaceStatus.eOk⟩ : IterScript))).1 =
      (List.replicate 5
        (⟨⟨SurfaceStatus.eOk, 0⟩, SurfaceStatus.eOk⟩ : IterScript)).length % 2) := by
  have h := C3_amended_frame_advance 2 0
    ⟨⟨SurfaceStatus.eResize, 0⟩, SurfaceStatus.eOk⟩
    (List.replicate 5 (⟨⟨SurfaceStatus.eOk, 0⟩, SurfaceStatus.eOk⟩ : IterScript))
    rfl (by decide)
  exact ⟨rfl, by decide, h.1, h.2.2⟩

namespace littlevk

theorem find_memory_type_go_spec (properties : Nat) :
    ∀ (types : List MemoryType) (type_filter base : Nat),
      (∀ j, find_memory_type_go properties types type_filter base = some j →
        ∃ k, j = base + k ∧ k < types.length ∧
          memMatch types type_filter properties k ∧
          ∀ m, m < k → ¬ memMatch types type_filter properties m) ∧
      (find_memory_type_go properties types type_filter base = none →
        ∀ k, k < types.length → ¬ memMatch types type_filter properties k) := by
  intro types
  induction types with
  | nil =>
      intro type_filter base
      constructor
      · intro j h
        simp [find_memory_type_go] at h
      · intro _ k hk
        simp at hk
  | cons t rest ih =>
      intro type_filter base
      have key : ∀ k, memMatch (t :: rest) type_filter properties (k + 1) ↔
          memMatch rest (type_filter / 2) properties k := by
        intro k
        unfold memMatch
        rw [Nat.testBit_succ]
        simp [List.getD_cons_succ]
      have key0 : memMatch (t :: rest) type_filter properties 0 ↔
          (type_filter % 2 = 1 ∧
            Nat.land t.propertyFlags properties = properties) := by
        unfold memMatch
        rw [Nat.testBit_zero]
        simp [List.getD_cons_zero]
      by_cases hcond : type_filter % 2 = 1 ∧
          Nat.land t.propertyFlags properties = properties
      · constructor
        · intro j h
          simp only [find_memory_type_go] at h
          rw [if_pos hcond] at h
          injection h with h
          refine ⟨0, by omega, by simp, key0.mpr hcond, ?_⟩
          intro m hm
          omega
        · intro h
          simp only [find_memory_type_go] at h
          rw [if_pos hcond] at h
          cases h
      · constructor
        · intro j h
          simp only [find_memory_type_go] at h
          rw [if_neg hcond] at h
          obtain ⟨k, hk1, hk2, hk3, hk4⟩ := (ih (type_filter / 2) (base + 1)).1 j h
          refine ⟨k + 1, by omega, by simp; omega, (key k).mpr hk3, ?_⟩
          intro m hm
          cases m with
          | zero =>
              intro hmm
              exact hcond (key0.mp hmm)
          | succ m2 =>
              intro hmm
              exact hk4 m2 (by omega) ((key m2).mp hmm)
        · intro h k hk
          simp only [find_memory_type_go] at h
          rw [if_neg hcond] at h
          cases k with
          | zero =>
              intro hmm
              exact hcond (key0.mp hmm)
          | succ k2 =>
              intro hmm
              refine (ih (type_filter / 2) (base + 1)).2 h k2 ?_ ((key k2).mp hmm)
              simp at hk
              omega

end littlevk

/-- C5 counterexample: a non-final step of the linked allocator does not
stage its teardown in a transient queue — it commits the record to the
device-owned queue immediately.  After a single `.buffer` step with no
terminal commit, the device queue already holds one record. -/
theorem C5_counterexample_step_commits_immediately :
    ((LinkedDeviceAllocator.step ⟨[], ⟨[]⟩⟩
        ⟨fun v => v, 5, false⟩).dal.device_deallocators = [5]) ∧
    ((LinkedDeviceAllocator.step ⟨[], ⟨[]⟩⟩
        ⟨fun v => v, 5, false⟩).dal.device_deallocators ≠ []) := by
  refine ⟨rfl, ?_⟩
  intro h
  rw [show (LinkedDeviceAllocator.step ⟨[], ⟨[]⟩⟩
      ⟨fun v => v, 5, false⟩).dal.device_deallocators = [5] from rfl] at h
  simp at h

/-- C5 amended: each `.buffer`/`.image` step of the linked allocator selects
the first memory type whose filter bit is set and whose property flags are a
superset of the requested flags (`none`, a logged hard error, when no type
matches), appends the created resource to the ordered tuple, and commits the
resource's teardown record directly to the device-owned queue at that step —
there is no shared transient queue and no merging final commit step.  Reading
the finished chain yields the single resource for a one-step chain and the
full ordered group otherwise. -/
theorem C5_amended_linked_allocator (st st2 : LinkedDeviceAllocator)
    (p : DeviceReturnProxy Nat) (r : Nat)
    (hp : p.failed = false) (hr : st.resources = [r])
    (h2 : ∀ x : Nat, st2.resources ≠ [x]) :
    ((st.step p).resources = st.resources ++ [p.value]) ∧
    ((st.step p).dal.device_deallocators =
      st.dal.device_deallocators ++ [p.destructor p.value]) ∧
    (st.unpack = Unpacked.single r) ∧
    (st2.unpack = Unpacked.group st2.resources) ∧
    (∀ (mem : PhysicalDeviceMemoryProperties) (tf props j : Nat),
      find_memory_type mem tf props = some j →
        j < mem.memoryTypes.length ∧ memMatch mem.memoryTypes tf props j ∧
        ∀ m, m < j → ¬ memMatch mem.memoryTypes tf props m) ∧
    (∀ (mem : PhysicalDeviceMemoryProperties) (tf props : Nat),
      find_memory_type mem tf props = none →
        ∀ k, k < mem.memoryTypes.length → ¬ memMatch mem.memoryTypes tf props k) := by
  refine ⟨?_, ?_, ?_, ?_, ?_, ?_⟩
  · simp [LinkedDeviceAllocator.step, DeviceReturnProxy.unwrap, hp]
  · simp [LinkedDeviceAllocator.step, DeviceReturnProxy.unwrap, hp]
  · unfold LinkedDeviceAllocator.unpack
    rw [hr]
  · unfold LinkedDeviceAllocator.unpack
    rcases hres : st2.resources with _ | ⟨a, _ | ⟨b, tl⟩⟩
    · rfl
    · exact absurd hres (h2 a)
    · rfl
  · intro mem tf props j h
    obtain ⟨k, hk1, hk2, hk3, hk4⟩ :=
      (find_memory_type_go_spec props mem.memoryTypes tf 0).1 j h
    exact ⟨by omega, by rwa [show j = k from by omega], by
      intro m hm
      exact hk4 m (by omega)⟩
  · intro mem tf props h
    exact (find_memory_type_go_spec props mem.memoryTypes tf 0).2 h

/-- Witness for the amended C5 at a concrete one-step chain. -/
theorem C5_amended_linked_allocator_witness :
    ((⟨fun v => v, 5, false⟩ : DeviceReturnProxy Nat).failed = false) ∧
    ((⟨[9], ⟨[1]⟩⟩ : LinkedDeviceAllocator).resources = [9]) ∧
    (∀ x : Nat, (⟨[9, 8], ⟨[1]⟩⟩ : LinkedDeviceAllocator).resources ≠ [x]) ∧
    ((LinkedDeviceAllocator.step ⟨[9], ⟨[1]⟩⟩
        ⟨fun v => v, 5, false⟩).resources = [9] ++ [5]) := by
  refine ⟨rfl, rfl, ?_, ?_⟩
  · intro x hx
    simp at hx
  · exact (C5_amended_linked_allocator ⟨[9], ⟨[1]⟩⟩ ⟨[9, 8], ⟨[1]⟩⟩
      ⟨fun v => v, 5, false⟩ 9 rfl rfl (by intro x hx; simp at hx)).1

namespace littlevk

theorem bindingMap_foldl_update (l : List DescriptorSetLayoutBinding) :
    ∀ (m : Nat → Option DescriptorSetLayoutBinding) (k : Nat),
      (l.foldl (fun m b k2 => if k2 = b.binding then some b else m k2) m) k =
        l.foldl (fun acc b => if k = b.binding then some b else acc) (m k) := by
  induction l with
  | nil => intro m k; rfl
  | cons b t ih =>
      intro m k
      simp only [List.foldl_cons]
      rw [ih]

theorem lastWrite_spec (k : Nat) (b : DescriptorSetLayoutBinding)
    (l : List DescriptorSetLayoutBinding) :
    (l.map (fun x => x.binding)).Nodup →
      ((l.foldl (fun acc b2 => if k = b2.binding then some b2 else acc) none
        = some b) ↔ (b ∈ l ∧ b.binding = k)) := by
  induction l using List.reverseRecOn with
  | nil =>
      intro _
      simp
  | append_singleton l b2 ih =>
      intro hnd
      rw [List.map_append, List.nodup_append] at hnd
      have hnl : (l.map (fun x => x.binding)).Nodup := hnd.1
      have hdisj : b2.binding ∉ l.map (fun x => x.binding) := by
        intro hmem
        exact hnd.2.2 hmem (List.mem_singleton.mpr rfl)
      rw [List.foldl_append]
      simp only [List.foldl_cons, List.foldl_nil]
      by_cases hk : k = b2.binding
      · rw [if_pos hk]
        constructor
        · intro h
          injection h with h
          exact ⟨by simp [h.symm], by rw [h.symm, hk]⟩
        · intro ⟨hmem, hbk⟩
          rcases List.mem_append.mp hmem with hl | hb2
          · exfalso
            apply hdisj
            rw [hk.symm, hbk.symm]
            exact List.mem_map.mpr ⟨b, hl, rfl⟩
          · rw [List.mem_singleton.mp hb2]
      · rw [if_neg hk]
        rw [ih hnl]
        constructor
        · intro ⟨hmem, hbk⟩
          exact ⟨List.mem_append_left _ hmem, hbk⟩
        · intro ⟨hmem, hbk⟩
          rcases List.mem_append.mp hmem with hl | hb2
          · exact ⟨hl, hbk⟩
          · exfalso
            apply hk
            rw [List.mem_singleton.mp hb2] at hbk
            exact hbk.symm

theorem bindingMap_spec (l : List DescriptorSetLayoutBinding)
    (hnd : (l.map (fun x => x.binding)).Nodup) (k : Nat)
    (b : DescriptorSetLayoutBinding) :
    bindingMap l k = some b ↔ (b ∈ l ∧ b.binding = k) := by
  unfold bindingMap
  rw [bindingMap_foldl_update]
  exact lastWrite_spec k b l hnd

end littlevk

/-- C6 counterexample: the compute-variant `compile()` never populates the
binding map.  With bindings `{0: type 10, 1: type 11}` declared (the spec's
sampler/uniform-buffer scenario), the compiled compute pipeline's binding
map has no entry at binding index 0. -/
theorem C6_counterexample_compute_binding_map :
    ((compileCompute ⟨[⟨0, 10, 1, 4⟩, ⟨1, 11, 1, 4⟩]⟩).bindings 0 = none) ∧
    ((⟨0, 10, 1, 4⟩ : DescriptorSetLayoutBinding) ∈
      (⟨[⟨0, 10, 1, 4⟩, ⟨1, 11, 1, 4⟩]⟩ : PipelineAssemblerState).dsl_bindings) := by
  exact ⟨rfl, by simp⟩

/-- C6 amended: both `compile()` variants create one descriptor-set layout
iff at least one descriptor binding was declared; the graphics variant's
binding map contains exactly the declared bindings keyed by binding index
(with matching descriptor type, count and stage, the whole declared entry
being stored); the compute variant leaves the binding map empty. -/
theorem C6_amended_pipeline_binding_map (a : PipelineAssemblerState)
    (hnd : (a.dsl_bindings.map (fun b => b.binding)).Nodup) :
    ((compileGraphics a).dsl = none ↔ a.dsl_bindings = []) ∧
    ((compileCompute a).dsl = none ↔ a.dsl_bindings = []) ∧
    (∀ (k : Nat) (b : DescriptorSetLayoutBinding),
      (compileGraphics a).bindings k = some b ↔
        (b ∈ a.dsl_bindings ∧ b.binding = k)) ∧
    (∀ k : Nat, (compileCompute a).bindings k = none) := by
  refine ⟨?_, ?_, ?_, ?_⟩
  · by_cases h : a.dsl_bindings = [] <;> simp [compileGraphics, h]
  · by_cases h : a.dsl_bindings = [] <;> simp [compileCompute, h]
  · intro k b
    exact bindingMap_spec a.dsl_bindings hnd k b
  · intro k
    rfl

/-- Witness for the amended C6 with bindings `{0: type 10, 1: type 11}`. -/
theorem C6_amended_pipeline_binding_map_witness :
    (((⟨[⟨0, 10, 1, 4⟩, ⟨1, 11, 1, 4⟩]⟩ :
        PipelineAssemblerState).dsl_bindings.map (fun b => b.binding)).Nodup) ∧
    ((compileGraphics ⟨[⟨0, 10, 1, 4⟩, ⟨1, 11, 1, 4⟩]⟩).bindings 0 =
        some ⟨0, 10, 1, 4⟩ ↔
      ((⟨0, 10, 1, 4⟩ : DescriptorSetLayoutBinding) ∈
        (⟨[⟨0, 10, 1, 4⟩, ⟨1, 11, 1, 4⟩]⟩ :
          PipelineAssemblerState).dsl_bindings ∧
       (⟨0, 10, 1, 4⟩ : DescriptorSetLayoutBinding).binding = 0)) := by
  refine ⟨by decide, ?_⟩
  exact (C6_amended_pipeline_binding_map ⟨[⟨0, 10, 1, 4⟩, ⟨1, 11, 1, 4⟩]⟩
    (by decide)).2.2.1 0 ⟨0, 10, 1, 4⟩

/-- C7 counterexample: with an empty shader-stage list the graphics compile
still attempts native pipeline creation after logging, and with a missing
shader bundle the compute compile throws without ever logging — so the
"hard error logged before any native creation is attempted" behaviour
claimed for both variants does not hold. -/
theorem C7_counterexample_shader_stage_errors :
    (PipelineEvent.createGraphicsPipeline ∈ pipelineCompileGraphicsTrace []) ∧
    (PipelineEvent.logEmptyStagesError ∉ computeAssemblerCompileTrace [] none) := by
  decide

/-- C7 amended: in the graphics variant an empty shader-stage list is logged
as an error before native creation, but `createGraphicsPipeline` is still
attempted; in the compute variant a missing shader-stage bundle aborts with a
`bad_optional_access` exception thrown after descriptor-set/pipeline-layout
creation and before any native pipeline creation, with nothing logged. -/
theorem C7_amended_shader_stage_errors (stages : List Nat)
    (bindings : List DescriptorSetLayoutBinding)
    (hempty : stages.isEmpty = true) :
    (pipelineCompileGraphicsTrace stages =
      [PipelineEvent.logEmptyStagesError, PipelineEvent.createGraphicsPipeline]) ∧
    (computeAssemblerCompileTrace bindings none =
      (if bindings.isEmpty then []
       else [PipelineEvent.createDescriptorSetLayout]) ++
        [PipelineEvent.createPipelineLayout,
         PipelineEvent.throwBadOptionalAccess]) ∧
    (PipelineEvent.logEmptyStagesError ∉
      computeAssemblerCompileTrace bindings none) ∧
    (PipelineEvent.createComputePipeline ∉
      computeAssemblerCompileTrace bindings none) := by
  refine ⟨?_, ?_, ?_, ?_⟩
  · simp [pipelineCompileGraphicsTrace, hempty]
  · cases h : bindings.isEmpty <;>
      simp [computeAssemblerCompileTrace, h]
  · cases h : bindings.isEmpty <;>
      simp [computeAssemblerCompileTrace, h]
  · cases h : bindings.isEmpty <;>
      simp [computeAssemblerCompileTrace, h]

/-- Witness for the amended C7 at empty stages and empty bindings. -/
theorem C7_amended_shader_stage_errors_witness :
    ((List.nil : List Nat).isEmpty = true) ∧
    (pipelineCompileGraphicsTrace [] =
      [PipelineEvent.logEmptyStagesError, PipelineEvent.createGraphicsPipeline]) := by
  exact ⟨rfl, (C7_amended_shader_stage_errors [] [] rfl).1⟩

namespace littlevk

theorem add_attachment_foldl {A : Type} (ds : List A) :
    ∀ rpa : RenderPassAssembler A,
      (ds.foldl RenderPassAssembler.add_attachment rpa).attachments =
          rpa.attachments ++ ds ∧
      (ds.foldl RenderPassAssembler.add_attachment rpa).subpasses =
          rpa.subpasses ∧
      (ds.foldl RenderPassAssembler.add_attachment rpa).dependencies =
          rpa.dependencies := by
  induction ds with
  | nil => intro rpa; simp
  | cons d t ih =>
      intro rpa
      simp only [List.foldl_cons]
      obtain ⟨h1, h2, h3⟩ := ih (rpa.add_attachment d)
      refine ⟨?_, ?_, ?_⟩
      · rw [h1]
        simp [RenderPassAssembler.add_attachment]
      · rw [h2]
        rfl
      · rw [h3]
        rfl

theorem applyOp_foldl {A : Type} (ops : List SubpassOp) :
    ∀ s : SubpassAssembler A,
      ops.foldl SubpassAssembler.applyOp s =
        ⟨s.parent, s.bindpoint, s.inputs ++ inputRefs ops,
         s.colors ++ colorRefs ops, lastDepthFrom s.depth ops⟩ := by
  induction ops with
  | nil =>
      intro s
      simp [inputRefs, colorRefs, lastDepthFrom]
  | cons op t ih =>
      intro s
      simp only [List.foldl_cons]
      rw [ih]
      cases op with
      | input a l =>
          simp [SubpassAssembler.applyOp, SubpassAssembler.input_attachment,
            inputRefs, colorRefs, lastDepthFrom, List.filterMap_cons]
      | color a l =>
          simp [SubpassAssembler.applyOp, SubpassAssembler.color_attachment,
            inputRefs, colorRefs, lastDepthFrom, List.filterMap_cons]
      | depth a l =>
          simp [SubpassAssembler.applyOp, SubpassAssembler.depth_attachment,
            inputRefs, colorRefs, lastDepthFrom, List.filterMap_cons]

theorem stableSize_spec (l : List Extent2D) (s : Extent2D) :
    stableSize l = some s →
      (s.width ≠ 0 ∧ s.height ≠ 0) ∧ ∃ l1 l2, l = l1 ++ s :: s :: l2 := by
  induction l using stableSize.induct with
  | case1 => intro h; cases h
  | case2 x => intro h; cases h
  | case3 a n rest hz ih =>
      intro h
      rw [stableSize, if_pos hz] at h
      obtain ⟨hnz, l1, l2, heq⟩ := ih h
      exact ⟨hnz, a :: l1, l2, by simp [heq]⟩
  | case4 n rest hz =>
      intro h
      rw [stableSize, if_neg hz, if_pos rfl] at h
      injection h with h
      subst h
      refine ⟨⟨?_, ?_⟩, [], rest, rfl⟩
      · intro hw; exact hz (Or.inl hw)
      · intro hw; exact hz (Or.inr hw)
  | case5 a n rest hz he ih =>
      intro h
      rw [stableSize, if_neg hz, if_neg he] at h
      obtain ⟨hnz, l1, l2, heq⟩ := ih h
      exact ⟨hnz, a :: n :: l1, l2, by simp [heq]⟩

theorem stdClamp_bounds (v lo hi : Nat) (h : lo ≤ hi) :
    lo ≤ stdClamp v lo hi ∧ stdClamp v lo hi ≤ hi := by
  by_cases h1 : v < lo
  · simp only [stdClamp, if_pos h1]
    omega
  · by_cases h2 : hi < v <;>
      simp only [stdClamp, if_neg h1, if_pos, if_neg, h2, ite_true, ite_false] <;>
      omega

end littlevk

/-- C8: attachments added in order `[a0, ..., an]` appear at indices
`[0, ..., n]` of the produced render pass in insertion order (the assembler
neither reorders nor drops them), and a subpass assembled from any sequence
of input/color/depth calls carries exactly the caller's references, in call
order, with the depth reference being the last one set. -/
theorem C8_renderpass_assembler_ordering {A : Type}
    (rpa : RenderPassAssembler A) (ds : List A) (bp : Nat)
    (ops : List SubpassOp) :
    ((ds.foldl RenderPassAssembler.add_attachment rpa).toCreateInfo.attachments =
      rpa.attachments ++ ds) ∧
    ((ds.foldl RenderPassAssembler.add_attachment
        (⟨[], [], []⟩ : RenderPassAssembler A)).toCreateInfo.attachments = ds) ∧
    ((ops.foldl SubpassAssembler.applyOp (rpa.add_subpass bp)).done.subpasses =
      rpa.subpasses ++
        [⟨bp, inputRefs ops, colorRefs ops, lastDepthFrom none ops⟩]) ∧
    ((ops.foldl SubpassAssembler.applyOp (rpa.add_subpass bp)).done.attachments =
      rpa.attachments) := by
  refine ⟨?_, ?_, ?_, ?_⟩
  · exact (add_attachment_foldl ds rpa).1
  · have h := (add_attachment_foldl ds (⟨[], [], []⟩ : RenderPassAssembler A)).1
    simpa using h
  · rw [applyOp_foldl ops (rpa.add_subpass bp)]
    simp [RenderPassAssembler.add_subpass, SubpassAssembler.done]
  · rw [applyOp_foldl ops (rpa.add_subpass bp)]
    simp [RenderPassAssembler.add_subpass, SubpassAssembler.done]

/-- C9: `Skeleton::resize` accepts only a geometrically stable window size
(two consecutive equal nonzero framebuffer reads), clamps it to the
surface's min/max image extent, fully idles the device before touching the
swapchain, and rebuilds the swapchain in place through `littlevk::resize`,
which replaces only `info.imageExtent` in the retained creation info —
surface, image count, format, color space, array layers, usage, sharing
mode, transform, composite alpha, present mode, clipped flag and old
swapchain are all unchanged — destroying the old views and handle before
recreating from that info. -/
theorem C9_resize_recovery (dev : DeviceModel) (caps : SurfaceCapabilities)
    (samples : List Extent2D) (sk : Skeleton) (s : Extent2D)
    (hs : stableSize samples = some s)
    (hw : caps.minImageExtent.width ≤ caps.maxImageExtent.width)
    (hh : caps.minImageExtent.height ≤ caps.maxImageExtent.height) :
    (s.width ≠ 0 ∧ s.height ≠ 0) ∧
    (∃ l1 l2, samples = l1 ++ s :: s :: l2) ∧
    (caps.minImageExtent.width ≤ (clampExtent caps s).width ∧
      (clampExtent caps s).width ≤ caps.maxImageExtent.width ∧
      caps.minImageExtent.height ≤ (clampExtent caps s).height ∧
      (clampExtent caps s).height ≤ caps.maxImageExtent.height) ∧
    (Skeleton.resize dev caps samples sk =
      some ({ windowExtent := clampExtent caps s,
              swapchain :=
                (littlevk.resize dev sk.swapchain (clampExtent caps s)).1 },
        DeviceEvent.waitIdle ::
          (littlevk.resize dev sk.swapchain (clampExtent caps s)).2)) ∧
    ((littlevk.resize dev sk.swapchain (clampExtent caps s)).1.info =
      { sk.swapchain.info with imageExtent := clampExtent caps s }) ∧
    ((littlevk.resize dev sk.swapchain (clampExtent caps s)).1.info.surface =
        sk.swapchain.info.surface ∧
      (littlevk.resize dev sk.swapchain (clampExtent caps s)).1.info.minImageCount =
        sk.swapchain.info.minImageCount ∧
      (littlevk.resize dev sk.swapchain (clampExtent caps s)).1.info.imageFormat =
        sk.swapchain.info.imageFormat ∧
      (littlevk.resize dev sk.swapchain (clampExtent caps s)).1.info.imageColorSpace =
        sk.swapchain.info.imageColorSpace ∧
      (littlevk.resize dev sk.swapchain (clampExtent caps s)).1.info.imageArrayLayers =
        sk.swapchain.info.imageArrayLayers ∧
      (littlevk.resize dev sk.swapchain (clampExtent caps s)).1.info.imageUsage =
        sk.swapchain.info.imageUsage ∧
      (littlevk.resize dev sk.swapchain (clampExtent caps s)).1.info.imageSharingMode =
        sk.swapchain.info.imageSharingMode ∧
      (littlevk.resize dev sk.swapchain (clampExtent caps s)).1.info.preTransform =
        sk.swapchain.info.preTransform ∧
      (littlevk.resize dev sk.swapchain (clampExtent caps s)).1.info.compositeAlpha =
        sk.swapchain.info.compositeAlpha ∧
      (littlevk.resize dev sk.swapchain (clampExtent caps s)).1.info.presentMode =
        sk.swapchain.info.presentMode ∧
      (littlevk.resize dev sk.swapchain (clampExtent caps s)).1.info.clipped =
        sk.swapchain.info.clipped ∧
      (littlevk.resize dev sk.swapchain (clampExtent caps s)).1.info.oldSwapchain =
        sk.swapchain.info.oldSwapchain ∧
      (littlevk.resize dev sk.swapchain (clampExtent caps s)).1.info.imageExtent =
        clampExtent caps s) ∧
    ((littlevk.resize dev sk.swapchain (clampExtent caps s)).2 =
      sk.swapchain.image_views.map DeviceEvent.destroyImageView ++
        [DeviceEvent.destroySwapchain sk.swapchain.handle,
         DeviceEvent.createSwapchain
           ({ sk.swapchain.info with imageExtent := clampExtent caps s })] ++
        (littlevk.resize dev sk.swapchain (clampExtent caps s)).1.images.map
          DeviceEvent.createImageView) := by
  obtain ⟨hnz, hdecomp⟩ := stableSize_spec samples s hs
  obtain ⟨hw1, hw2⟩ := stdClamp_bounds s.width caps.minImageExtent.width
    caps.maxImageExtent.width hw
  obtain ⟨hh1, hh2⟩ := stdClamp_bounds s.height caps.minImageExtent.height
    caps.maxImageExtent.height hh
  refine ⟨hnz, hdecomp, ⟨hw1, hw2, hh1, hh2⟩, ?_, rfl, ?_, rfl⟩
  · simp [Skeleton.resize, hs]
  · exact ⟨rfl, rfl, rfl, rfl, rfl, rfl, rfl, rfl, rfl, rfl, rfl, rfl, rfl⟩

/-- Witness for C9 at a concrete sample stream and swapchain. -/
theorem C9_resize_recovery_witness :
    (stableSize [⟨0, 0⟩, ⟨800, 600⟩, ⟨800, 600⟩] = some ⟨800, 600⟩) ∧
    ((⟨⟨100, 100⟩, ⟨1000, 1000⟩⟩ : SurfaceCapabilities).minImageExtent.width ≤
      (⟨⟨100, 100⟩, ⟨1000, 1000⟩⟩ : SurfaceCapabilities).maxImageExtent.width) ∧
    ((⟨⟨100, 100⟩, ⟨1000, 1000⟩⟩ : SurfaceCapabilities).minImageExtent.height ≤
      (⟨⟨100, 100⟩, ⟨1000, 1000⟩⟩ : SurfaceCapabilities).maxImageExtent.height) ∧
    ((littlevk.resize ⟨fun _ => 40, fun _ => [41, 42], fun v => v + 100⟩
        (⟨1, 2, [3], [4], ⟨7, 3, 5, 6, ⟨640, 480⟩, 1, 8, 0, 1, 1, 2, true, 0⟩⟩ :
          Swapchain)
        (clampExtent ⟨⟨100, 100⟩, ⟨1000, 1000⟩⟩ ⟨800, 600⟩)).1.info =
      { (⟨1, 2, [3], [4], ⟨7, 3, 5, 6, ⟨640, 480⟩, 1, 8, 0, 1, 1, 2, true, 0⟩⟩ :
          Swapchain).info with
        imageExtent := clampExtent ⟨⟨100, 100⟩, ⟨1000, 1000⟩⟩ ⟨800, 600⟩ }) := by
  refine ⟨by decide, by decide, by decide, ?_⟩
  exact (C9_resize_recovery ⟨fun _ => 40, fun _ => [41, 42], fun v => v + 100⟩
    ⟨⟨100, 100⟩, ⟨1000, 1000⟩⟩ [⟨0, 0⟩, ⟨800, 600⟩, ⟨800, 600⟩]
    ⟨⟨640, 480⟩, ⟨1, 2, [3], [4], ⟨7, 3, 5, 6, ⟨640, 480⟩, 1, 8, 0, 1, 1, 2, true, 0⟩⟩⟩
    ⟨800, 600⟩ (by decide) (by decide) (by decide)).2.2.2.2.1
